import Mathlib

/-!
Verification development for the `rag-chatboat` document-QA chat service.

This file gives a shallow embedding of the service's core logic:
* the in-memory session store (`src/app/storage/session_store.py`),
* the streaming response protocol (`src/app/agent/factory.py` composed with
  the stream generator in `src/app/main.py`),
* the PDF parsing/validation boundary (`src/app/parsing/pdf.py`) and the
  upload endpoint (`src/app/main.py`).

Conventions of the embedding:
* Text is modelled as `List Char` (named `Str` below), so that splitting,
  joining and containment arguments are ordinary list inductions.
* Wall-clock values (`datetime.now()`, `time.time()`) are passed in
  explicitly as a `Nat` parameter `now` wherever the Python code reads the
  clock; code that never reads the clock gets no such parameter.
* Python `dict`s become insertion-ordered association lists
  (`List (String × α)`): lookup finds the first matching key, updating an
  existing key rewrites its value in place, and inserting a new key appends.
* External libraries (pypdf, the Agno agent) are opaque inputs: the pypdf
  reader is a value describing what the library would return on the given
  bytes, and the agent's single `run` call is an `Except` value (normal
  answer text, or the raised exception's message).
-/

namespace RagChat

abbrev Str := List Char

/-! ## Insertion-ordered association lists (Python `dict` semantics) -/

/-- `d.get(k)` / `k in d`: first value stored under key `k`, if any. -/
def findA {α : Type} (k : String) : List (String × α) → Option α
  | [] => none
  | (k', v) :: rest => if k' = k then some v else findA k rest

/-- `d[k] = v`: rewrite the value in place if the key exists, else append
(Python dicts preserve insertion order and keep a rewritten key's slot). -/
def upsert {α : Type} (k : String) (v : α) : List (String × α) → List (String × α)
  | [] => [(k, v)]
  | (k', v') :: rest => if k' = k then (k, v) :: rest else (k', v') :: upsert k v rest

/-- Remove every entry whose key lies in `ks` (`d.pop(k, None)` over a list of keys). -/
def eraseKeys {α : Type} (ks : List String) : List (String × α) → List (String × α)
  | [] => []
  | p :: rest => if p.1 ∈ ks then eraseKeys ks rest else p :: eraseKeys ks rest

/-! ## Data model (`src/app/models.py`) -/

/-- `PDFMetadata` (`models.py`): metadata extracted from a PDF. -/
structure PDFMetadata where
  filename : Str
  pages : Nat
  characters : Nat
  size_bytes : Nat
deriving DecidableEq, Repr

/-- One session's mutable record inside `SessionStore._sessions`. -/
structure SessionData where
  created_at : Nat
  message_count : Nat
  last_activity : Nat
deriving DecidableEq, Repr

/-- `SessionInfo` (`models.py`): the read model returned by `get_session_info`. -/
structure SessionInfo where
  session_id : String
  created_at : Nat
  message_count : Nat
  has_pdf : Bool
  pdf_filename : Option Str
deriving DecidableEq, Repr

/-! ## Session store (`src/app/storage/session_store.py`) -/

/-- The three dicts of `SessionStore.__init__`. -/
structure SessionStore where
  sessions : List (String × SessionData)
  pdf_content : List (String × Str)
  pdf_metadata : List (String × PDFMetadata)
deriving DecidableEq, Repr

def SessionStore.empty : SessionStore := ⟨[], [], []⟩

/-- `SessionStore.create_session` (state change only): adds a fresh record with
`message_count = 0` unless the id is already present. -/
def create_session (now : Nat) (sid : String) (s : SessionStore) : SessionStore :=
  match findA sid s.sessions with
  | some _ => s
  | none => { s with sessions := s.sessions ++ [(sid, ⟨now, 0, now⟩)] }

/-- The pure read of `SessionStore.get_session_info` once the session exists. -/
def readSessionInfo (sid : String) (d : SessionData) (s : SessionStore) : SessionInfo :=
  { session_id := sid
    created_at := d.created_at
    message_count := d.message_count
    has_pdf := (findA sid s.pdf_content).isSome
    pdf_filename := (findA sid s.pdf_metadata).map PDFMetadata.filename }

/-- `SessionStore.get_session_info`: creates the session if absent, then reads
its info. Returns the info together with the (possibly grown) store. -/
def get_session_info (now : Nat) (sid : String) (s : SessionStore) :
    SessionInfo × SessionStore :=
  match findA sid s.sessions with
  | some d => (readSessionInfo sid d s, s)
  | none =>
    let s' := create_session now sid s
    match findA sid s'.sessions with
    | some d => (readSessionInfo sid d s', s')
    | none => (⟨sid, now, 0, false, none⟩, s')  -- unreachable: creation inserts sid

/-- `SessionStore.increment_message_count`: bumps the count and refreshes
`last_activity` — but only when the session already exists (`if session_id in
self._sessions`); otherwise the call is a silent no-op. -/
def increment_message_count (now : Nat) (sid : String) (s : SessionStore) : SessionStore :=
  match findA sid s.sessions with
  | none => s
  | some d =>
    let d' : SessionData :=
      { d with message_count := d.message_count + 1, last_activity := now }
    { s with sessions := upsert sid d' s.sessions }

/-- `SessionStore.store_pdf_content`: overwrites the content and metadata dicts
for the id. It never touches `_sessions` (no creation, no activity refresh). -/
def store_pdf_content (sid : String) (pdf_text : Str) (metadata : PDFMetadata)
    (s : SessionStore) : SessionStore :=
  { s with
    pdf_content := upsert sid pdf_text s.pdf_content
    pdf_metadata := upsert sid metadata s.pdf_metadata }

/-- `SessionStore.get_pdf_content`. -/
def get_pdf_content (sid : String) (s : SessionStore) : Option Str :=
  findA sid s.pdf_content

/-- `SessionStore.get_pdf_metadata`. -/
def get_pdf_metadata (sid : String) (s : SessionStore) : Option PDFMetadata :=
  findA sid s.pdf_metadata

/-- `SessionStore.has_pdf`. -/
def has_pdf (sid : String) (s : SessionStore) : Bool :=
  (findA sid s.pdf_content).isSome

/-- `str(n)` for a natural number, as a character list. -/
def natStr (n : Nat) : Str := (toString n).data

/-- `SessionStore.get_context_for_agent`: the single context part is appended
only under Python truthiness of both `pdf_content` (nonempty text) and
`pdf_metadata`; `"\n\n".join` of the empty list is the empty string. -/
def get_context_for_agent (sid : String) (s : SessionStore) : Str :=
  match get_pdf_content sid s, get_pdf_metadata sid s with
  | some text, some meta =>
    if text = [] then []
    else "Document: ".data ++ meta.filename ++ "\nPages: ".data ++ natStr meta.pages
      ++ "\nContent:\n".data ++ text
  | _, _ => []

/-- `SessionStore.cleanup_old_sessions`: collects the ids whose
`last_activity` is strictly below `now - max_age_hours * 3600`, pops each from
all three dicts, and returns how many ids were collected. -/
def cleanup_old_sessions (now : Nat) (max_age_hours : Nat) (s : SessionStore) :
    Nat × SessionStore :=
  let cutoff : Int := (now : Int) - (max_age_hours * 3600 : Nat)
  let sessions_to_remove :=
    (s.sessions.filter (fun p => (p.2.last_activity : Int) < cutoff)).map Prod.fst
  (sessions_to_remove.length,
    { sessions := eraseKeys sessions_to_remove s.sessions
      pdf_content := eraseKeys sessions_to_remove s.pdf_content
      pdf_metadata := eraseKeys sessions_to_remove s.pdf_metadata })

/-! ## Python string primitives used by the embedded code -/

/-- `str.split()` worker: `acc` holds the current word, reversed. -/
def pySplitAux : Str → Str → List Str
  | [], acc => if acc = [] then [] else [acc.reverse]
  | c :: rest, acc =>
    if c.isWhitespace then
      if acc = [] then pySplitAux rest [] else acc.reverse :: pySplitAux rest []
    else pySplitAux rest (c :: acc)

/-- Python `str.split()` with no argument: split on runs of whitespace,
discarding empty fragments. -/
def pySplit (s : Str) : List Str := pySplitAux s []

/-- Python `str.strip()`: drop leading and trailing whitespace. -/
def pyStrip (s : Str) : Str :=
  ((s.dropWhile Char.isWhitespace).reverse.dropWhile Char.isWhitespace).reverse

/-- Python `str.lower()` (ASCII, which is all the code compares). -/
def pyLower (s : Str) : Str := s.map Char.toLower

/-- Python `str.endswith(suf)`. -/
def pyEndsWith (suf s : Str) : Bool := suf.isSuffixOf s

/-- Python `sep.join(parts)`. -/
def pyJoin (sep : Str) : List Str → Str
  | [] => []
  | [p] => p
  | p :: rest => p ++ sep ++ pyJoin sep rest

/-! ## Streaming response protocol
(`AgentFactory.stream_response` in `src/app/agent/factory.py` composed with
`stream_generator` inside `stream_chat` in `src/app/main.py`).

The agent's `run` call is opaque: `.ok content` is the normalized answer text
(factory lines 65–71) and `.error msg` means `run` raised an exception whose
`str` is `msg`. Timestamps and `elapsed_seconds` are real-time readings with
no logical content, so events carry only the data the claims constrain. -/

/-- The wire-event variants of `StreamChunkType` (`models.py`), with the
fields `stream_generator` actually sets on each. -/
inductive StreamEvent where
  | status (step : Str)
  | token (content : Str) (token_count : Nat)
  | done (token_count : Nat)
  | error (content : Str)
deriving DecidableEq, Repr

/-- The hard-coded status steps (identical lists in `factory.py` line 59 and
`main.py` line 84). -/
def statusSteps : List Str :=
  ["Analyzing".data, "Searching knowledge".data, "Generating response".data]

/-- `stream_response` error text (factory line 82). -/
def streamErrorText (msg : Str) : Str :=
  "[Error generating response: ".data ++ msg ++ "]".data

/-- The items `AgentFactory.stream_response` yields after the agent ran: on
success, the whitespace fragments of the answer with a single-space item
yielded before every fragment but the first (`if i > 0: yield " "`); if `run`
raised, the single wrapped error string. -/
def stream_response_items (run_result : Except Str Str) : List Str :=
  match run_result with
  | .ok content =>
    match pySplit content with
    | [] => []
    | f :: fs => f :: fs.flatMap (fun g => [[' '], g])
  | .error msg => [streamErrorText msg]

/-- Token events for the yielded items: `token_count` is incremented before
each emission, so item `i` (0-based) carries count `i + 1`. -/
def tokenEvents (items : List Str) : List StreamEvent :=
  (items.enumFrom 1).map (fun p => StreamEvent.token p.2 p.1)

/-- `stream_generator` (`main.py` lines 80–127) on the items produced by
`agent_factory.stream_response`: three status events, one token event per
yielded item, then a single done event carrying the final count. The
`except` arm that emits an `error` event fires only if the item source itself
raises, which `stream_response` never does — it catches every exception from
the agent and yields the wrapped message as an ordinary item. -/
def stream_generator (items : List Str) : List StreamEvent :=
  statusSteps.map StreamEvent.status
    ++ tokenEvents items
    ++ [StreamEvent.done items.length]

/-- One full chat turn's event stream, as a function of the agent outcome. -/
def chat_stream (run_result : Except Str Str) : List StreamEvent :=
  stream_generator (stream_response_items run_result)

/-- Event classifiers, for counting. -/
def StreamEvent.isToken : StreamEvent → Bool
  | .token _ _ => true
  | _ => false

def StreamEvent.isDone : StreamEvent → Bool
  | .done _ => true
  | _ => false

def StreamEvent.isError : StreamEvent → Bool
  | .error _ => true
  | _ => false

def StreamEvent.isStatus : StreamEvent → Bool
  | .status _ => true
  | _ => false

/-! ## PDF parsing boundary (`src/app/parsing/pdf.py`) and the upload
endpoint (`upload_pdf` in `src/app/main.py`).

pypdf is opaque: a `PdfFile` records what the library deterministically does
on the uploaded bytes — either `PdfReader` raises `PdfReadError` with some
message, or it yields a list of pages whose `extract_text()` returns a string
(`some`) or raises (`none`, caught and skipped by `parse_pdf`'s page loop). -/

/-- Python `str.split(sep)` for a one-character separator: keeps empty pieces. -/
def pySplitOnAux (sep : Char) : Str → Str → List Str
  | [], acc => [acc.reverse]
  | c :: rest, acc =>
    if c = sep then acc.reverse :: pySplitOnAux sep rest []
    else pySplitOnAux sep rest (c :: acc)

def pySplitOn (sep : Char) (s : Str) : List Str := pySplitOnAux sep s []

/-- `PDFParser._clean_text`: split on newlines, strip each line, drop empty
lines, re-join with single newlines. -/
def clean_text (text : Str) : Str :=
  pyJoin "\n".data
    (((pySplitOn '\n' text).map pyStrip).filter (fun line => ¬ line = []))

/-- `PDFParser.__init__`: limits taken from settings (`config.py` defaults:
`max_pdf_size_mb = 10`, `max_pdf_pages = 100`; both overridable by env). -/
structure PDFParserCfg where
  max_pdf_size_mb : Nat
  max_pages : Nat

def PDFParserCfg.max_size_bytes (cfg : PDFParserCfg) : Nat :=
  cfg.max_pdf_size_mb * 1024 * 1024

def defaultCfg : PDFParserCfg := ⟨10, 100⟩

/-- What pypdf does on the uploaded bytes. -/
structure PdfFile where
  size_bytes : Nat
  reader : Except Str (List (Option Str))
deriving Repr

/-- `PDFParser.validate_file`: extension, size, emptiness, then reader-level
checks; `PdfReadError` becomes the "corrupted or invalid" message, while the
page-count `PDFParseError`s raised inside the same `try` are not caught by
its `except PdfReadError` arm and propagate as-is. -/
def validate_file (cfg : PDFParserCfg) (file : PdfFile) (filename : Str) :
    Except Str Unit :=
  if ¬ pyEndsWith ".pdf".data (pyLower filename) then
    .error ("File ".data ++ filename ++ " is not a PDF".data)
  else if file.size_bytes > cfg.max_size_bytes then
    .error ("File ".data ++ filename ++ " is too large. Maximum size: ".data
      ++ natStr (cfg.max_size_bytes / (1024 * 1024)) ++ "MB".data)
  else if file.size_bytes = 0 then
    .error ("File ".data ++ filename ++ " is empty".data)
  else
    match file.reader with
    | .error e =>
      .error ("File ".data ++ filename ++ " is corrupted or invalid: ".data ++ e)
    | .ok pages =>
      if pages.length = 0 then
        .error ("File ".data ++ filename ++ " has no pages".data)
      else if pages.length > cfg.max_pages then
        .error ("File ".data ++ filename ++ " has too many pages. Maximum pages: ".data
          ++ natStr cfg.max_pages)
      else .ok ()

/-- `PDFParser.parse_pdf`: validate, extract each page's stripped text
(skipping pages whose extraction raised and pages that strip to nothing),
join with blank lines, clean, reject if nothing readable remains, else build
the metadata. Re-reading the same bytes gives the same reader outcome; a
`PdfReadError` at this second read would fall into the generic `except` arm
("Failed to parse PDF ..."), though validation has already excluded it. -/
def parse_pdf (cfg : PDFParserCfg) (file : PdfFile) (filename : Str) :
    Except Str (Str × PDFMetadata) :=
  match validate_file cfg file filename with
  | .error e => .error e
  | .ok () =>
    match file.reader with
    | .error e =>
      .error ("Failed to parse PDF ".data ++ filename ++ ": ".data ++ e)
    | .ok pages =>
      let text_parts := pages.filterMap (fun pt =>
        match pt with
        | none => none
        | some t => if pyStrip t = [] then none else some (pyStrip t))
      let full_text := clean_text (pyJoin "\n\n".data text_parts)
      if pyStrip full_text = [] then
        .error ("No readable text found in ".data ++ filename)
      else
        .ok (full_text,
          { filename := filename
            pages := pages.length
            characters := full_text.length
            size_bytes := file.size_bytes })

/-- `PDFUploadResponse` (`models.py`), with the endpoint's metadata dict
carried as the `PDFMetadata` it is built from. -/
structure PDFUploadResponse where
  success : Bool
  message : Str
  session_id : String
  metadata : Option PDFMetadata
deriving Repr

/-- `upload_pdf` (`main.py` lines 144–177): parse, store on success; a
`PDFParseError` is answered in-band with `success=False` and the error's
message, leaving the store untouched. (The final generic `except` arm only
handles faults outside this model, e.g. the transport failing to read the
upload.) -/
def upload_pdf (cfg : PDFParserCfg) (sid : String) (file : PdfFile)
    (filename : Str) (store : SessionStore) : PDFUploadResponse × SessionStore :=
  match parse_pdf cfg file filename with
  | .ok (pdf_text, metadata) =>
    ({ success := true
       message := "Successfully uploaded and parsed ".data ++ filename
       session_id := sid
       metadata := some metadata },
     store_pdf_content sid pdf_text metadata store)
  | .error e =>
    ({ success := false, message := e, session_id := sid, metadata := none }, store)

/-! ## Derived observations used to state the claims -/

/-- The contents of the token events of a stream, in emission order. -/
def tokenContents (evs : List StreamEvent) : List Str :=
  evs.filterMap (fun e => match e with | .token c _ => some c | _ => none)

/-- The running counts carried by the token events, in emission order. -/
def tokenCounts (evs : List StreamEvent) : List Nat :=
  evs.filterMap (fun e => match e with | .token _ n => some n | _ => none)

/-- One step of a chat-turn/upload interleaving against a fixed session id:
a completed chat turn (`increment_message_count`, read at clock `now`) or a
document store (`store_pdf_content`, which reads no clock). -/
inductive TurnOp where
  | turn (now : Nat)
  | storeDoc (text : Str) (meta : PDFMetadata)

def applyTurnOp (sid : String) (s : SessionStore) : TurnOp → SessionStore
  | .turn now => increment_message_count now sid s
  | .storeDoc text meta => store_pdf_content sid text meta s

def applyTurnOps (sid : String) (ops : List TurnOp) (s : SessionStore) : SessionStore :=
  ops.foldl (applyTurnOp sid) s

def TurnOp.isTurn : TurnOp → Bool
  | .turn _ => true
  | .storeDoc _ _ => false

def countTurns (ops : List TurnOp) : Nat := (ops.filter TurnOp.isTurn).length

/-- A concrete metadata value for witnesses and counterexamples. -/
def metaF : PDFMetadata :=
  { filename := "f.pdf".data, pages := 3, characters := 4, size_bytes := 9 }

/-! ## Lemmas about the association-list dict operations -/

theorem findA_upsert_self {α : Type} (k : String) (v : α) (l : List (String × α)) :
    findA k (upsert k v l) = some v := by
  induction l with
  | nil => simp [upsert, findA]
  | cons p rest ih =>
    obtain ⟨k', v'⟩ := p
    by_cases h : k' = k
    · simp [upsert, h, findA]
    · simp [upsert, h, findA, ih]

theorem findA_upsert_other {α : Type} (k j : String) (v : α) (l : List (String × α))
    (hjk : j ≠ k) : findA j (upsert k v l) = findA j l := by
  have hkj : k ≠ j := Ne.symm hjk
  induction l with
  | nil => simp [upsert, findA, hkj]
  | cons p rest ih =>
    obtain ⟨k', v'⟩ := p
    by_cases h : k' = k
    · subst h
      simp [upsert, findA, hkj]
    · by_cases h2 : k' = j <;> simp [upsert, h, findA, h2, ih, hjk]

theorem findA_mem {α : Type} {k : String} {v : α} {l : List (String × α)}
    (h : findA k l = some v) : (k, v) ∈ l := by
  induction l with
  | nil => simp [findA] at h
  | cons p rest ih =>
    obtain ⟨k', v'⟩ := p
    by_cases hk : k' = k
    · subst hk
      simp [findA] at h
      simp [h]
    · simp [findA, hk] at h
      exact List.mem_cons_of_mem _ (ih h)

theorem findA_eraseKeys_of_mem {α : Type} {k : String} (ks : List String)
    (l : List (String × α)) (h : k ∈ ks) : findA k (eraseKeys ks l) = none := by
  induction l with
  | nil => simp [eraseKeys, findA]
  | cons p rest ih =>
    obtain ⟨k', v'⟩ := p
    by_cases hm : k' ∈ ks
    · simpa [eraseKeys, hm] using ih
    · have hne : k' ≠ k := fun he => hm (he ▸ h)
      simpa [eraseKeys, hm, findA, hne] using ih

theorem findA_eraseKeys_of_not_mem {α : Type} {k : String} (ks : List String)
    (l : List (String × α)) (h : ¬ k ∈ ks) : findA k (eraseKeys ks l) = findA k l := by
  induction l with
  | nil => simp [eraseKeys, findA]
  | cons p rest ih =>
    obtain ⟨k', v'⟩ := p
    by_cases hk : k' = k
    · subst hk
      simp [eraseKeys, h, findA, ih]
    · by_cases hm : k' ∈ ks <;> simp [eraseKeys, hm, findA, hk, ih]

theorem findA_append_none {α : Type} {k : String} {l₁ : List (String × α)}
    (l₂ : List (String × α)) (h : findA k l₁ = none) :
    findA k (l₁ ++ l₂) = findA k l₂ := by
  induction l₁ with
  | nil => simp
  | cons p rest ih =>
    obtain ⟨k', v'⟩ := p
    by_cases hk : k' = k
    · simp [findA, hk] at h
    · simp [findA, hk] at h ⊢
      exact ih h

theorem findA_of_mem_nodup {α : Type} {k : String} {v : α} {l : List (String × α)}
    (hn : (l.map Prod.fst).Nodup) (h : (k, v) ∈ l) : findA k l = some v := by
  induction l with
  | nil => simp at h
  | cons p rest ih =>
    obtain ⟨k', v'⟩ := p
    simp only [List.map_cons, List.nodup_cons] at hn
    rcases List.mem_cons.mp h with he | hm
    · cases he
      simp [findA]
    · have hk : k' ≠ k := by
        intro he
        exact hn.1 (he ▸ (List.mem_map_of_mem Prod.fst hm))
      simp [findA, hk]
      exact ih hn.2 hm

/-! ## Lemmas about the stream embedding -/

theorem map_snd_enumFrom {α : Type} (n : Nat) (l : List α) :
    (l.enumFrom n).map Prod.snd = l := by
  induction l generalizing n with
  | nil => rfl
  | cons a rest ih => simp [List.enumFrom, ih]

theorem map_fst_enumFrom {α : Type} (n : Nat) (l : List α) :
    (l.enumFrom n).map Prod.fst = List.range' n l.length := by
  induction l generalizing n with
  | nil => rfl
  | cons a rest ih => simp [List.enumFrom, ih, List.range']

theorem intersperse_eq_cons_flatMap {α : Type} (sep : α) (f : α) (fs : List α) :
    List.intersperse sep (f :: fs) = f :: fs.flatMap (fun g => [sep, g]) := by
  induction fs generalizing f with
  | nil => simp
  | cons g gs ih => simp [List.intersperse_cons_cons, ih]

theorem stream_response_items_ok (content : Str) :
    stream_response_items (Except.ok content) =
      List.intersperse [' '] (pySplit content) := by
  have hdef : stream_response_items (Except.ok content)
      = match pySplit content with
        | [] => []
        | f :: fs => f :: fs.flatMap (fun g => [[' '], g]) := rfl
  rw [hdef]
  cases h : pySplit content with
  | nil => rfl
  | cons f fs => rw [intersperse_eq_cons_flatMap]

theorem tokenContents_tokenEvents_pairs (l : List (Nat × Str)) :
    tokenContents (l.map (fun p => StreamEvent.token p.2 p.1)) = l.map Prod.snd := by
  induction l with
  | nil => rfl
  | cons p rest ih => simp [tokenContents, List.filterMap_cons] at ih ⊢; exact ih

theorem tokenCounts_tokenEvents_pairs (l : List (Nat × Str)) :
    tokenCounts (l.map (fun p => StreamEvent.token p.2 p.1)) = l.map Prod.fst := by
  induction l with
  | nil => rfl
  | cons p rest ih => simp [tokenCounts, List.filterMap_cons] at ih ⊢; exact ih

theorem tokenContents_stream_generator (items : List Str) :
    tokenContents (stream_generator items) = items := by
  unfold tokenContents stream_generator
  rw [List.filterMap_append, List.filterMap_append]
  have h2 := tokenContents_tokenEvents_pairs (items.enumFrom 1)
  unfold tokenContents at h2
  have h3 : tokenEvents items
      = (items.enumFrom 1).map (fun p => StreamEvent.token p.2 p.1) := rfl
  rw [h3, h2, map_snd_enumFrom]
  simp [statusSteps]

theorem tokenCounts_stream_generator (items : List Str) :
    tokenCounts (stream_generator items) = List.range' 1 items.length := by
  unfold tokenCounts stream_generator
  rw [List.filterMap_append, List.filterMap_append]
  have h2 := tokenCounts_tokenEvents_pairs (items.enumFrom 1)
  unfold tokenCounts at h2
  have h3 : tokenEvents items
      = (items.enumFrom 1).map (fun p => StreamEvent.token p.2 p.1) := rfl
  rw [h3, h2, map_fst_enumFrom]
  simp [statusSteps]

theorem pySplitAux_fragments (s : Str) :
    ∀ acc : Str, (∀ c ∈ acc, c.isWhitespace = false) →
      ∀ f ∈ pySplitAux s acc, f ≠ [] ∧ ∀ c ∈ f, c.isWhitespace = false := by
  induction s with
  | nil =>
    intro acc hacc f hf
    by_cases h : acc = []
    · simp [pySplitAux, h] at hf
    · simp [pySplitAux, h] at hf
      subst hf
      refine ⟨by simpa using h, ?_⟩
      intro c hc
      exact hacc c (List.mem_reverse.mp hc)
  | cons c rest ih =>
    intro acc hacc f hf
    by_cases hw : c.isWhitespace
    · by_cases h : acc = []
      · simp [pySplitAux, hw, h] at hf
        exact ih [] (by simp) f hf
      · simp [pySplitAux, hw, h] at hf
        rcases hf with hf | hf
        · subst hf
          refine ⟨by simpa using h, ?_⟩
          intro x hx
          exact hacc x (List.mem_reverse.mp hx)
        · exact ih [] (by simp) f hf
    · simp [pySplitAux, hw] at hf
      refine ih (c :: acc) ?_ f hf
      intro x hx
      rcases List.mem_cons.mp hx with he | hm
      · subst he
        simpa using hw
      · exact hacc x hm

theorem pySplit_fragments (content : Str) :
    ∀ f ∈ pySplit content, f ≠ [] ∧ ∀ c ∈ f, c.isWhitespace = false :=
  pySplitAux_fragments content [] (by simp)

/-! ## Claim C1: agent failure during invocation -/

/-- C1 counterexample: with the answering capability raising "quota exceeded",
the stream contains no `error` event at all — instead exactly one `token`
event (wrapping the message) and a terminal `done` event, refuting the claim
that exactly one `error` event is emitted with no token or done events after
it. -/
theorem C1_counterexample :
    ((chat_stream (Except.error "quota exceeded".data)).filter StreamEvent.isError).length
        = 0 ∧
    ((chat_stream (Except.error "quota exceeded".data)).filter StreamEvent.isToken).length
        = 1 ∧
    (chat_stream (Except.error "quota exceeded".data)).getLast?
        = some (StreamEvent.done 1) := by
  decide

/-- C1 (amended): when the agent's `run` raises, `stream_response` catches the
exception and yields the wrapped message `[Error generating response: <msg>]`
as an ordinary item, so the stream is exactly the three status events, then
one `token` event whose content embeds the failure's message (count 1), then
one `done` event; no `error` event is emitted on this path. -/
theorem C1_agent_failure_token_stream (msg : Str) :
    chat_stream (Except.error msg)
      = statusSteps.map StreamEvent.status
        ++ [StreamEvent.token (streamErrorText msg) 1, StreamEvent.done 1] ∧
    (∃ pre post, streamErrorText msg = pre ++ msg ++ post) ∧
    (chat_stream (Except.error msg)).filter StreamEvent.isError = [] := by
  refine ⟨rfl, ⟨"[Error generating response: ".data, "]".data, rfl⟩, ?_⟩
  rfl

/-! ## Claim C3: token events per answer fragment -/

/-- C3 counterexample: for the answer text "a b" (two whitespace-delimited
fragments) the stream emits three token events, not two — the separating
space is emitted as its own token event between the fragments. -/
theorem C3_counterexample :
    ((chat_stream (Except.ok "a b".data)).filter StreamEvent.isToken).length = 3 ∧
    (pySplit "a b".data).length = 2 ∧
    tokenContents (chat_stream (Except.ok "a b".data)) = [['a'], [' '], ['b']] := by
  decide

/-- C3 (amended): the token events' contents are the whitespace-delimited
fragments of the answer in original order, interleaved with single-space
separator events between consecutive fragments (so 2k−1 token events for k ≥ 1
fragments); the counts are the 1-based running sequence over all token events;
and no fragment is empty or contains a whitespace character. -/
theorem C3_token_events (content : Str) :
    tokenContents (chat_stream (Except.ok content))
      = List.intersperse [' '] (pySplit content) ∧
    tokenCounts (chat_stream (Except.ok content))
      = List.range' 1 (List.intersperse [' '] (pySplit content)).length ∧
    ∀ f ∈ pySplit content, f ≠ [] ∧ ∀ c ∈ f, c.isWhitespace = false := by
  refine ⟨?_, ?_, pySplit_fragments content⟩
  · rw [show chat_stream (Except.ok content)
        = stream_generator (stream_response_items (Except.ok content)) from rfl,
      tokenContents_stream_generator, stream_response_items_ok]
  · rw [show chat_stream (Except.ok content)
        = stream_generator (stream_response_items (Except.ok content)) from rfl,
      tokenCounts_stream_generator, stream_response_items_ok]

/-- C3 witness: the amended statement evaluated on the concrete answer "a b",
with the fragment-membership hypothesis discharged for the fragment `['a']`. -/
theorem C3_witness :
    tokenContents (chat_stream (Except.ok "a b".data))
      = List.intersperse [' '] (pySplit "a b".data) ∧
    (['a'] ≠ [] ∧ ∀ c ∈ ['a'], c.isWhitespace = false) :=
  ⟨(C3_token_events "a b".data).1,
   (C3_token_events "a b".data).2.2 ['a'] (by decide)⟩

/-! ## Claim C2: implicit session creation on first reference -/

/-- C2 counterexample: on a fresh store, a `recordTurn`
(`increment_message_count`) and a `storeDocument` (`store_pdf_content`) both
leave the session map without the id — neither creates the session, refuting
the claim that any first reference creates it with message count 0. -/
theorem C2_counterexample :
    (increment_message_count 1 "s" SessionStore.empty).sessions = [] ∧
    (store_pdf_content "s" "T".data metaF SessionStore.empty).sessions = [] := by
  decide

/-- C2 (amended): only a lookup (`get_session_info`) implicitly creates an
absent session, with message count 0; `increment_message_count` on an absent
id is a silent no-op, and `store_pdf_content` records the document without
creating a session entry. -/
theorem C2_implicit_creation (now : Nat) (sid : String) (s : SessionStore)
    (h : findA sid s.sessions = none) :
    findA sid ((get_session_info now sid s).2).sessions
      = some { created_at := now, message_count := 0, last_activity := now } ∧
    (get_session_info now sid s).1.message_count = 0 ∧
    increment_message_count now sid s = s ∧
    ∀ text meta, (store_pdf_content sid text meta s).sessions = s.sessions := by
  refine ⟨?_, ?_, ?_, fun text meta => rfl⟩
  · simp [get_session_info, h, create_session,
      findA_append_none [(sid, (⟨now, 0, now⟩ : SessionData))] h, findA]
  · simp [get_session_info, h, create_session,
      findA_append_none [(sid, (⟨now, 0, now⟩ : SessionData))] h, findA, readSessionInfo]
  · simp [increment_message_count, h]

/-- C2 witness: the amended statement on the empty store at clock 7. -/
theorem C2_witness :
    findA "s" ((get_session_info 7 "s" SessionStore.empty).2).sessions
      = some { created_at := 7, message_count := 0, last_activity := 7 } ∧
    increment_message_count 7 "s" SessionStore.empty = SessionStore.empty ∧
    (store_pdf_content "s" "T".data metaF SessionStore.empty).sessions
      = SessionStore.empty.sessions :=
  ⟨(C2_implicit_creation 7 "s" SessionStore.empty rfl).1,
   (C2_implicit_creation 7 "s" SessionStore.empty rfl).2.2.1,
   (C2_implicit_creation 7 "s" SessionStore.empty rfl).2.2.2 "T".data metaF⟩

/-! ## Claim C9: getOrCreate on a never-seen id -/

/-- C9 (confirmed): on an id with no session entry and no stored document,
`get_session_info` totally succeeds, reports message count 0 and no document,
`has_pdf` on the resulting store is false, and the session entry now exists. -/
theorem C9_fresh_session (now : Nat) (sid : String) (s : SessionStore)
    (h1 : findA sid s.sessions = none) (h2 : findA sid s.pdf_content = none) :
    (get_session_info now sid s).1.message_count = 0 ∧
    (get_session_info now sid s).1.has_pdf = false ∧
    has_pdf sid (get_session_info now sid s).2 = false ∧
    findA sid ((get_session_info now sid s).2).sessions
      = some { created_at := now, message_count := 0, last_activity := now } := by
  refine ⟨?_, ?_, ?_, ?_⟩ <;>
    simp [get_session_info, h1, h2, create_session,
      findA_append_none [(sid, (⟨now, 0, now⟩ : SessionData))] h1, findA,
      readSessionInfo, has_pdf]

/-- C9 witness: the fresh-session facts on the empty store at clock 5. -/
theorem C9_witness :
    (get_session_info 5 "s" SessionStore.empty).1.message_count = 0 ∧
    (get_session_info 5 "s" SessionStore.empty).1.has_pdf = false ∧
    has_pdf "s" (get_session_info 5 "s" SessionStore.empty).2 = false ∧
    findA "s" ((get_session_info 5 "s" SessionStore.empty).2).sessions
      = some { created_at := 5, message_count := 0, last_activity := 5 } :=
  C9_fresh_session 5 "s" SessionStore.empty rfl rfl

/-! ## Claim C5: document replacement and last-activity -/

/-- C5 counterexample: a session created at clock 0 keeps
`last_activity = 0` across a later `store_pdf_content` — the operation reads
no clock and never touches the session map, refuting the claim that storing a
document updates the session's last-activity timestamp. -/
theorem C5_counterexample :
    findA "s" ((store_pdf_content "s" "T".data metaF
        (create_session 0 "s" SessionStore.empty)).sessions)
      = some { created_at := 0, message_count := 0, last_activity := 0 } := by
  decide

/-- C5 (amended): `store_pdf_content` fully replaces any prior document
record (last upload wins), but leaves the session map — and hence the
last-activity timestamp — entirely unchanged. -/
theorem C5_store_replaces (sid : String) (text : Str) (meta : PDFMetadata)
    (s : SessionStore) :
    get_pdf_content sid (store_pdf_content sid text meta s) = some text ∧
    get_pdf_metadata sid (store_pdf_content sid text meta s) = some meta ∧
    (store_pdf_content sid text meta s).sessions = s.sessions :=
  ⟨findA_upsert_self sid text s.pdf_content,
   findA_upsert_self sid meta s.pdf_metadata, rfl⟩

/-! ## Claim C6: message count under turn/store interleavings -/

/-- C6 counterexample: one `recordTurn` on a never-created id (N = 1) leaves
the store without the session, and a subsequent lookup reports message count
0, not 1 — refuting the claim for sessions that were never created. -/
theorem C6_counterexample :
    (applyTurnOps "s" [TurnOp.turn 1] SessionStore.empty).sessions = [] ∧
    (get_session_info 2 "s"
        (applyTurnOps "s" [TurnOp.turn 1] SessionStore.empty)).1.message_count = 0 := by
  decide

/-- C6 (amended): provided the session entry already exists (message count
`c`), any interleaving of N `recordTurn`s with document stores for that id
leaves its message count at exactly `c + N`; document storage never changes
the count. -/
theorem C6_turn_count (sid : String) (ops : List TurnOp) :
    ∀ (s : SessionStore) (d : SessionData), findA sid s.sessions = some d →
      ∃ d', findA sid (applyTurnOps sid ops s).sessions = some d' ∧
        d'.message_count = d.message_count + countTurns ops := by
  induction ops with
  | nil =>
    intro s d h
    exact ⟨d, h, by simp [countTurns]⟩
  | cons op rest ih =>
    intro s d h
    cases op with
    | turn now =>
      have h2 : findA sid (increment_message_count now sid s).sessions
          = some { d with message_count := d.message_count + 1, last_activity := now } := by
        simp [increment_message_count, h, findA_upsert_self]
      obtain ⟨d', hd', hc⟩ := ih (increment_message_count now sid s) _ h2
      refine ⟨d', by simpa [applyTurnOps] using hd', ?_⟩
      simp [countTurns, TurnOp.isTurn, List.filter] at hc ⊢
      omega
    | storeDoc text meta =>
      obtain ⟨d', hd', hc⟩ := ih (store_pdf_content sid text meta s) d h
      refine ⟨d', by simpa [applyTurnOps] using hd', ?_⟩
      simpa [countTurns, TurnOp.isTurn, List.filter] using hc

/-- C6 witness: two turns interleaved with a document store on an existing
session with count 0 end at count 2 (= 0 + countTurns). -/
theorem C6_witness :
    ∃ d', findA "s" (applyTurnOps "s"
        [TurnOp.turn 1, TurnOp.storeDoc "T".data metaF, TurnOp.turn 2]
        (create_session 0 "s" SessionStore.empty)).sessions = some d' ∧
      d'.message_count
        = (0 : Nat) + countTurns [TurnOp.turn 1, TurnOp.storeDoc "T".data metaF,
            TurnOp.turn 2] :=
  C6_turn_count "s" [TurnOp.turn 1, TurnOp.storeDoc "T".data metaF, TurnOp.turn 2]
    (create_session 0 "s" SessionStore.empty)
    { created_at := 0, message_count := 0, last_activity := 0 } (by decide)

/-! ## Claim C7: context string format and emptiness -/

/-- C7 counterexample: storing a document whose extracted text is empty makes
`has_pdf` true while `get_context_for_agent` still returns the empty string —
refuting "empty iff no document was ever stored". -/
theorem C7_counterexample :
    has_pdf "s" (store_pdf_content "s" [] metaF SessionStore.empty) = true ∧
    get_context_for_agent "s" (store_pdf_content "s" [] metaF SessionStore.empty)
      = [] := by
  decide

/-- C7 (amended): `get_context_for_agent` returns the empty string iff there
is no stored document with nonempty text (a stored document with empty text
also yields the empty context); otherwise it returns exactly the block
`Document: <filename>\nPages: <pages>\nContent:\n<text>` — filename, then
page count, then full text, in that fixed order. -/
theorem C7_context_format (sid : String) (s : SessionStore) :
    (get_context_for_agent sid s = [] ↔
      ¬ ∃ text meta, get_pdf_content sid s = some text ∧
        get_pdf_metadata sid s = some meta ∧ text ≠ []) ∧
    ∀ text meta, get_pdf_content sid s = some text →
      get_pdf_metadata sid s = some meta → text ≠ [] →
      get_context_for_agent sid s
        = "Document: ".data ++ meta.filename ++ "\nPages: ".data ++ natStr meta.pages
          ++ "\nContent:\n".data ++ text := by
  have hD : ("Document: ".data : Str) ≠ [] := by decide
  constructor
  · cases hc : get_pdf_content sid s with
    | none => simp [get_context_for_agent, hc]
    | some text =>
      cases hm : get_pdf_metadata sid s with
      | none => simp [get_context_for_agent, hc, hm]
      | some meta =>
        by_cases ht : text = []
        · subst ht
          simp [get_context_for_agent, hc, hm]
        · simp [get_context_for_agent, hc, hm, ht, hD]
  · intro text meta hc hm ht
    simp [get_context_for_agent, hc, hm, ht]

/-- C7 witness: the block format on a concrete store holding text "TEXT". -/
theorem C7_witness :
    get_context_for_agent "s"
        (store_pdf_content "s" "TEXT".data metaF SessionStore.empty)
      = "Document: ".data ++ metaF.filename ++ "\nPages: ".data ++ natStr metaF.pages
        ++ "\nContent:\n".data ++ "TEXT".data :=
  (C7_context_format "s"
      (store_pdf_content "s" "TEXT".data metaF SessionStore.empty)).2
    "TEXT".data metaF (by decide) (by decide) (by decide)

/-! ## Claim C4: time-based eviction -/

/-- C4 counterexample: when the only activity on an id is a `storeDocument`
(which creates no session entry), `evictOlderThan(0)` at a later clock
removes nothing, and `hasDocument` still returns true afterwards — refuting
the claim's "after any activity, a subsequent hasDocument returns false". -/
theorem C4_counterexample :
    (cleanup_old_sessions 100 0
        (store_pdf_content "s" "T".data metaF SessionStore.empty)).1 = 0 ∧
    has_pdf "s" (cleanup_old_sessions 100 0
        (store_pdf_content "s" "T".data metaF SessionStore.empty)).2 = true := by
  decide

/-- C4 (amended): `cleanup_old_sessions` returns the number of session
entries whose last activity is older than the cutoff; every such entry is
removed together with its document content and metadata; and (for stores with
distinct keys) an entry at least as recent as the cutoff is retained
unchanged, its document state untouched. Documents stored under an id with no
session entry are not removed. -/
theorem C4_eviction (now max_age : Nat) (s : SessionStore) (sid : String)
    (d : SessionData) (hd : findA sid s.sessions = some d) :
    (cleanup_old_sessions now max_age s).1
      = (s.sessions.filter (fun p =>
          (p.2.last_activity : Int) < (now : Int) - (max_age * 3600 : Nat))).length ∧
    ((d.last_activity : Int) < (now : Int) - (max_age * 3600 : Nat) →
      findA sid ((cleanup_old_sessions now max_age s).2).sessions = none ∧
      has_pdf sid (cleanup_old_sessions now max_age s).2 = false ∧
      findA sid ((cleanup_old_sessions now max_age s).2).pdf_metadata = none) ∧
    ((s.sessions.map Prod.fst).Nodup →
      ¬ (d.last_activity : Int) < (now : Int) - (max_age * 3600 : Nat) →
      findA sid ((cleanup_old_sessions now max_age s).2).sessions = some d ∧
      has_pdf sid (cleanup_old_sessions now max_age s).2 = has_pdf sid s) := by
  have e1 : ((cleanup_old_sessions now max_age s).2).sessions
      = eraseKeys ((s.sessions.filter (fun p =>
          (p.2.last_activity : Int) < (now : Int) - (max_age * 3600 : Nat))).map
            Prod.fst) s.sessions := rfl
  have e2 : ((cleanup_old_sessions now max_age s).2).pdf_content
      = eraseKeys ((s.sessions.filter (fun p =>
          (p.2.last_activity : Int) < (now : Int) - (max_age * 3600 : Nat))).map
            Prod.fst) s.pdf_content := rfl
  have e3 : ((cleanup_old_sessions now max_age s).2).pdf_metadata
      = eraseKeys ((s.sessions.filter (fun p =>
          (p.2.last_activity : Int) < (now : Int) - (max_age * 3600 : Nat))).map
            Prod.fst) s.pdf_metadata := rfl
  refine ⟨by simp [cleanup_old_sessions], ?_, ?_⟩
  · intro hlt
    have hmem : (sid, d) ∈ s.sessions := findA_mem hd
    have hmem2 : (sid, d) ∈ s.sessions.filter (fun p =>
        (p.2.last_activity : Int) < (now : Int) - (max_age * 3600 : Nat)) :=
      List.mem_filter.mpr ⟨hmem, by simpa using hlt⟩
    have hms : sid ∈ (s.sessions.filter (fun p =>
        (p.2.last_activity : Int) < (now : Int) - (max_age * 3600 : Nat))).map Prod.fst :=
      List.mem_map_of_mem Prod.fst hmem2
    refine ⟨?_, ?_, ?_⟩
    · rw [e1, findA_eraseKeys_of_mem _ s.sessions hms]
    · unfold has_pdf
      rw [e2, findA_eraseKeys_of_mem _ s.pdf_content hms]
      rfl
    · rw [e3, findA_eraseKeys_of_mem _ s.pdf_metadata hms]
  · intro hnd hge
    have hnotin : ¬ sid ∈ (s.sessions.filter (fun p =>
        (p.2.last_activity : Int) < (now : Int) - (max_age * 3600 : Nat))).map Prod.fst := by
      intro hin
      rcases List.mem_map.mp hin with ⟨p, hp, hps⟩
      rcases List.mem_filter.mp hp with ⟨hpmem, hppred⟩
      obtain ⟨k, v⟩ := p
      cases hps
      have hv : v = d := by
        have hfv := findA_of_mem_nodup hnd hpmem
        rw [hd] at hfv
        exact (Option.some_inj.mp hfv).symm
      subst hv
      exact hge (by simpa using hppred)
    constructor
    · rw [e1, findA_eraseKeys_of_not_mem _ s.sessions hnotin, hd]
    · unfold has_pdf
      rw [e2, findA_eraseKeys_of_not_mem _ s.pdf_content hnotin]

/-- C4 witness: a session created at clock 0 with a stored document is fully
evicted by `evictOlderThan(0)` at clock 100 — session entry, document content
and metadata all gone. -/
theorem C4_witness :
    findA "s" ((cleanup_old_sessions 100 0 (store_pdf_content "s" "T".data metaF
        (create_session 0 "s" SessionStore.empty))).2).sessions = none ∧
    has_pdf "s" (cleanup_old_sessions 100 0 (store_pdf_content "s" "T".data metaF
        (create_session 0 "s" SessionStore.empty))).2 = false ∧
    findA "s" ((cleanup_old_sessions 100 0 (store_pdf_content "s" "T".data metaF
        (create_session 0 "s" SessionStore.empty))).2).pdf_metadata = none :=
  (C4_eviction 100 0
      (store_pdf_content "s" "T".data metaF (create_session 0 "s" SessionStore.empty))
      "s" { created_at := 0, message_count := 0, last_activity := 0 }
      (by decide)).2.1 (by decide)

/-! ## Claim C8: in-band failure reporting at the extraction boundary -/

/-- C8 (confirmed): every parsing/validation failure — whatever its mode
(wrong file type, empty file, oversized file, too many pages, corrupted
content, no extractable text) — is answered in-band as a `PDFUploadResponse`
with `success = false` carrying the failure's descriptive message; in
particular a filename that does not end in ".pdf" (case-insensitively) yields
a message containing " is not a PDF". -/
theorem C8_upload_failure (cfg : PDFParserCfg) (sid : String) (file : PdfFile)
    (fn : Str) (store : SessionStore) :
    (∀ e, parse_pdf cfg file fn = Except.error e →
      (upload_pdf cfg sid file fn store).1.success = false ∧
      (upload_pdf cfg sid file fn store).1.message = e) ∧
    (pyEndsWith ".pdf".data (pyLower fn) = false →
      (upload_pdf cfg sid file fn store).1.success = false ∧
      ∃ pre post,
        (upload_pdf cfg sid file fn store).1.message
          = pre ++ " is not a PDF".data ++ post) := by
  constructor
  · intro e he
    simp [upload_pdf, he]
  · intro h
    have hv : validate_file cfg file fn
        = Except.error ("File ".data ++ fn ++ " is not a PDF".data) := by
      unfold validate_file
      simp [h]
    have hp : parse_pdf cfg file fn
        = Except.error ("File ".data ++ fn ++ " is not a PDF".data) := by
      unfold parse_pdf
      rw [hv]
    refine ⟨by simp [upload_pdf, hp], "File ".data ++ fn, [], ?_⟩
    simp [upload_pdf, hp]

/-- C8 witness: submitting "notes.txt" exercises both parts — the general
in-band conjunct at its concrete error message, and the extension-specific
conjunct — yielding success = false and a message containing
" is not a PDF". -/
theorem C8_witness :
    ((upload_pdf defaultCfg "s" ⟨5, Except.ok [some "hi".data]⟩ "notes.txt".data
        SessionStore.empty).1.success = false ∧
      (upload_pdf defaultCfg "s" ⟨5, Except.ok [some "hi".data]⟩ "notes.txt".data
          SessionStore.empty).1.message = "File notes.txt is not a PDF".data) ∧
    (upload_pdf defaultCfg "s" ⟨5, Except.ok [some "hi".data]⟩ "notes.txt".data
        SessionStore.empty).1.success = false ∧
    ∃ pre post,
      (upload_pdf defaultCfg "s" ⟨5, Except.ok [some "hi".data]⟩ "notes.txt".data
          SessionStore.empty).1.message = pre ++ " is not a PDF".data ++ post :=
  ⟨(C8_upload_failure defaultCfg "s" ⟨5, Except.ok [some "hi".data]⟩
      "notes.txt".data SessionStore.empty).1
      ("File notes.txt is not a PDF".data) rfl,
   (C8_upload_failure defaultCfg "s" ⟨5, Except.ok [some "hi".data]⟩
      "notes.txt".data SessionStore.empty).2 (by decide)⟩

/-! ## Claim C10: failed uploads leave the store untouched -/

/-- C10 (confirmed): `upload_pdf` stores the document only after `parse_pdf`
fully succeeds; when parsing or validation fails the returned store is
exactly the input store (no document record and no message-count change). -/
theorem C10_failed_upload_state (cfg : PDFParserCfg) (sid : String)
    (file : PdfFile) (fn : Str) (store : SessionStore) :
    (∀ e, parse_pdf cfg file fn = Except.error e →
      (upload_pdf cfg sid file fn store).2 = store) ∧
    (∀ text meta, parse_pdf cfg file fn = Except.ok (text, meta) →
      (upload_pdf cfg sid file fn store).2 = store_pdf_content sid text meta store) := by
  constructor
  · intro e he
    simp [upload_pdf, he]
  · intro text meta he
    simp [upload_pdf, he]

/-- C10 witness: the failing ".txt" upload leaves the empty store empty. -/
theorem C10_witness :
    (upload_pdf defaultCfg "s" ⟨5, Except.ok [some "hi".data]⟩ "notes.txt".data
        SessionStore.empty).2 = SessionStore.empty :=
  (C10_failed_upload_state defaultCfg "s" ⟨5, Except.ok [some "hi".data]⟩
      "notes.txt".data SessionStore.empty).1
    ("File notes.txt is not a PDF".data) rfl

end RagChat
